import Mathlib

/-!
Verification of the SOCKS5 proxy server (doraemonkeys/socks5).

The Go code is shallowly embedded.  The readable side of a connection
(net.Conn / io.Reader) is a finite list of byte values (Nat, each < 256 on a
real wire); a writer is modelled by the list of bytes it emits; Go errors are
the inductive type GoErr.  io.ReadFull of n bytes either consumes exactly the
first n bytes of the stream or fails (GoErr.ioShortRead stands for EOF,
unexpected EOF, and every other read error).  Go strings are byte strings and
are modelled as List Nat.  The listening loop, logging and configuration glue
are outside the modelled core, as in the specification.
-/

namespace Socks5

/-! ## Constants (socks5.go, auth.go, request file) -/

abbrev SOCKS5Version : Nat := 0x05
abbrev ReservedField : Nat := 0x00

abbrev MethodNoAuth : Nat := 0x00
abbrev MethodGSSAPI : Nat := 0x01
abbrev MethodPassword : Nat := 0x02
abbrev MethodNoAcceptable : Nat := 0xff

abbrev PasswordMethodVersion : Nat := 0x01
abbrev PasswordAuthSuccess : Nat := 0x00
abbrev PasswordAuthFailure : Nat := 0x01

abbrev IPv4Length : Nat := 4
abbrev IPv6Length : Nat := 16
abbrev PortLength : Nat := 2

abbrev CmdConnect : Nat := 0x01
abbrev CmdBind : Nat := 0x02
abbrev CmdUDP : Nat := 0x03

abbrev TypeIPv4 : Nat := 0x01
abbrev TypeDomain : Nat := 0x03
abbrev TypeIPv6 : Nat := 0x04

abbrev ReplySuccess : Nat := 0
abbrev ReplyServerFailure : Nat := 1
abbrev ReplyConnectionNotAllowed : Nat := 2
abbrev ReplyNetworkUnreachable : Nat := 3
abbrev ReplyHostUnreachable : Nat := 4
abbrev ReplyConnectionRefused : Nat := 5
abbrev ReplyTTLExpired : Nat := 6
abbrev ReplyCommandNotSupported : Nat := 7
abbrev ReplyAddressTypeNotSupported : Nat := 8

/-- Go error values of the package (socks5.go, auth.go), plus ioShortRead for
errors surfaced by io.ReadFull and dialFailed for a failed net.DialTimeout. -/
inductive GoErr where
  | versionNotSupported
  | methodVersionNotSupported
  | commandNotSupported
  | invalidReservedField
  | addressTypeNotSupported
  | passwordAuthFailure
  | ioShortRead
  | dialFailed
  deriving DecidableEq, Repr

/-- Models io.ReadFull into a buffer of size n: consumes exactly the first n
bytes of the stream, or fails when fewer are available. -/
def readN (n : Nat) (s : List Nat) : Option (List Nat × List Nat) :=
  if n ≤ s.length then some (s.take n, s.drop n) else none

/-! ## Rendering of IP addresses (Go standard library net.IP.String)

The request parser stores the target of an IPv4/IPv6 request as the string
rendering of the address bytes, produced by net.IP.String.  That function is
Go standard library code, outside this repository; it is modelled here after
its documented behaviour: 4-byte addresses and IPv4-mapped 16-byte addresses
render dotted decimal, other 16-byte addresses render as lowercase hex groups
joined by colons with the leftmost longest run of at least two zero groups
compressed to a double colon (RFC 5952), other lengths render as a question
mark followed by the hex bytes. -/

/-- Byte string of a Lean string literal (code points; ASCII in all uses). -/
def strBytes (s : String) : List Nat := s.toList.map Char.toNat

/-- Decimal digits of n as ASCII bytes. -/
def decBytes (n : Nat) : List Nat := (Nat.toDigits 10 n).map Char.toNat

/-- Lowercase hex digits of n (no leading zeros) as ASCII bytes. -/
def hexBytes (n : Nat) : List Nat := (Nat.toDigits 16 n).map Char.toNat

/-- Two lowercase hex digits of a byte, as ASCII bytes. -/
def byteHexBytes (n : Nat) : List Nat :=
  [(Nat.digitChar (n / 16 % 16)).toNat, (Nat.digitChar (n % 16)).toNat]

/-- Dotted-decimal rendering of address bytes, joined by 46 (the dot). -/
def ipv4String (b : List Nat) : List Nat := List.intercalate [46] (b.map decBytes)

/-- Big-endian 16-bit groups of a byte list. -/
def groups16 : List Nat → List Nat
  | a :: b :: t => (a * 256 + b) :: groups16 t
  | _ => []

/-- Length of the zero run at the head of a group list. -/
def zeroRun : List Nat → Nat
  | 0 :: t => zeroRun t + 1
  | _ => 0

/-- Leftmost longest run of zero groups, as (start, length). -/
def bestZeroRun (gs : List Nat) : Nat × Nat :=
  (List.range gs.length).foldl
    (fun best i =>
      let r := zeroRun (gs.drop i)
      if best.2 < r then (i, r) else best)
    (0, 0)

/-- RFC 5952 style rendering of a 16-byte address: hex groups joined by
58 (the colon), the leftmost longest zero run of length at least two
compressed to a double colon. -/
def ipv6String (b : List Nat) : List Nat :=
  let gs := groups16 b
  let best := bestZeroRun gs
  if best.2 ≤ 1 then List.intercalate [58] (gs.map hexBytes)
  else
    List.intercalate [58] ((gs.take best.1).map hexBytes) ++ [58, 58] ++
      List.intercalate [58] ((gs.drop (best.1 + best.2)).map hexBytes)

/-- Models Go net.IP.String (standard library, outside this repository). -/
def netIPString (ip : List Nat) : List Nat :=
  if ip.length = 0 then strBytes "<nil>"
  else if ip.length = 4 then ipv4String ip
  else if ip.length ≠ 16 then 63 :: (ip.map byteHexBytes).flatten
  else if ip.take 12 == [0, 0, 0, 0, 0, 0, 0, 0, 0, 0, 255, 255] then ipv4String (ip.drop 12)
  else ipv6String ip

/-! ## auth.go -/

structure ClientAuthMessage where
  Version : Nat
  NMethods : Nat
  Methods : List Nat
  deriving DecidableEq, Repr

structure ClientPasswordMessage where
  Username : List Nat
  Password : List Nat
  deriving DecidableEq, Repr

/-- Models NewClientAuthMessage (auth.go): read VER and NMETHODS, reject a
version other than 5, then read exactly NMETHODS method bytes. -/
def NewClientAuthMessage (input : List Nat) : Except GoErr (ClientAuthMessage × List Nat) :=
  match input with
  | ver :: nmethods :: rest =>
    if ver ≠ SOCKS5Version then Except.error GoErr.versionNotSupported
    else
      match readN nmethods rest with
      | none => Except.error GoErr.ioShortRead
      | some (methods, rest2) =>
        Except.ok ({ Version := SOCKS5Version, NMethods := nmethods, Methods := methods }, rest2)
  | _ => Except.error GoErr.ioShortRead

/-- Models SendServerAuthMessage (auth.go): the two bytes written. -/
def SendServerAuthMessage (method : Nat) : List Nat := [SOCKS5Version, method]

/-- Outcome of the password sub-negotiation parser.  The panicked case models
a Go runtime panic (an out-of-range slice expression). -/
inductive PwParse where
  | ok (msg : ClientPasswordMessage) (rest : List Nat)
  | err (e : GoErr)
  | panicked
  deriving DecidableEq, Repr

/-- Models NewClientPasswordMessage (auth.go).  The Go code allocates a buffer
of usernameLen+1 bytes where usernameLen+1 is computed in byte arithmetic
(mod 256), fills it with io.ReadFull, and then splits it as
buf[: len(buf)-1] and buf[len(buf)-1].  When usernameLen is 255 the buffer
length wraps to 0 and the slice expression buf[: -1] panics at run time,
modelled by the panicked outcome. -/
def NewClientPasswordMessage (input : List Nat) : PwParse :=
  match input with
  | version :: usernameLen :: rest =>
    if version ≠ PasswordMethodVersion then PwParse.err GoErr.methodVersionNotSupported
    else
      let bufLen := (usernameLen + 1) % 256
      match readN bufLen rest with
      | none => PwParse.err GoErr.ioShortRead
      | some (buf, rest2) =>
        if bufLen = 0 then PwParse.panicked
        else
          let username := buf.dropLast
          let passwordLen := buf.getLast?.getD 0
          match readN passwordLen rest2 with
          | none => PwParse.err GoErr.ioShortRead
          | some (password, rest3) =>
            PwParse.ok { Username := username, Password := password } rest3
  | _ => PwParse.err GoErr.ioShortRead

/-- Models WriteServerPasswordMessage (auth.go): the two bytes written. -/
def WriteServerPasswordMessage (status : Nat) : List Nat := [PasswordMethodVersion, status]

/-! ## Request parsing and replies -/

structure ClientRequestMessage where
  Cmd : Nat
  AddrType : Nat
  TargetIP : List Nat
  Port : Nat
  deriving DecidableEq, Repr

/-- Final step of NewClientRequestMessage: read the two port bytes and build
the message, with the port composed big-endian. -/
def finishPort (cmd addrType : Nat) (targetIP : List Nat) (s : List Nat) :
    Except GoErr (ClientRequestMessage × List Nat) :=
  match s with
  | p0 :: p1 :: rest =>
    Except.ok ({ Cmd := cmd, AddrType := addrType, TargetIP := targetIP, Port := p0 * 256 + p1 }, rest)
  | _ => Except.error GoErr.ioShortRead

/-- Models NewClientRequestMessage: read VER CMD RSV ATYP, validate the four
fields in order, then read the address (16 bytes for IPv6, 4 for IPv4 via the
fallthrough into the shared buffer, or a length byte followed by that many
domain bytes), and finally the two port bytes. -/
def NewClientRequestMessage (input : List Nat) : Except GoErr (ClientRequestMessage × List Nat) :=
  match input with
  | version :: command :: reserved :: addrType :: rest =>
    if version ≠ SOCKS5Version then Except.error GoErr.versionNotSupported
    else if command ≠ CmdConnect ∧ command ≠ CmdBind ∧ command ≠ CmdUDP then
      Except.error GoErr.commandNotSupported
    else if reserved ≠ ReservedField then Except.error GoErr.invalidReservedField
    else if addrType ≠ TypeIPv4 ∧ addrType ≠ TypeIPv6 ∧ addrType ≠ TypeDomain then
      Except.error GoErr.addressTypeNotSupported
    else if addrType = TypeDomain then
      match rest with
      | domainLength :: rest1 =>
        match readN domainLength rest1 with
        | none => Except.error GoErr.ioShortRead
        | some (domain, rest2) => finishPort command addrType domain rest2
      | _ => Except.error GoErr.ioShortRead
    else
      match readN (if addrType = TypeIPv6 then IPv6Length else IPv4Length) rest with
      | none => Except.error GoErr.ioShortRead
      | some (buf, rest2) => finishPort command addrType (netIPString buf) rest2
  | _ => Except.error GoErr.ioShortRead

/-- Models WriteRequestSuccessMessage: the bytes of a success reply.  The
address-type byte is derived from the length of the bound address; the port
(a uint16, reduced mod 2^16) is written as its high byte followed by the
difference computed by the Go code. -/
def WriteRequestSuccessMessage (ip : List Nat) (port : Nat) : List Nat :=
  let p := port % 65536
  let addressType := if IPv4Length < ip.length then TypeIPv6 else TypeIPv4
  let b0 := p / 256
  let b1 := p - b0 * 256
  [SOCKS5Version, ReplySuccess, ReservedField, addressType] ++ ip ++ [b0, b1]

/-- Models WriteRequestFailureMessage: the fixed-shape ten-byte failure frame. -/
def WriteRequestFailureMessage (replyType : Nat) : List Nat :=
  [SOCKS5Version, replyType, ReservedField, TypeIPv4, 0, 0, 0, 0, 0, 0]

/-! ## socks5.go: negotiation, authentication, request handling, relay -/

/-- Server configuration consumed by the core (TCPTimeout only bounds the
external dial and is not part of the modelled state). -/
structure Config where
  AuthMethod : Nat
  PasswordChecker : List Nat → List Nat → Bool

/-- Outcome of the auth phase: the unconsumed remainder of the client stream
on success, a Go error, or a runtime panic propagated from the password
parser. -/
inductive AuthResult where
  | ok (rest : List Nat)
  | err (e : GoErr)
  | panicked
  deriving DecidableEq, Repr

/-- Models the method-negotiation part of auth (socks5.go lines 150-172):
parse the greeting, scan the offered methods for the configured one, answer
with the configured method or with MethodNoAcceptable; in the latter case the
function returns ErrVersionNotSupported. -/
def negotiate (cfg : Config) (input : List Nat) : List Nat × Except GoErr (List Nat) :=
  match NewClientAuthMessage input with
  | Except.error e => ([], Except.error e)
  | Except.ok (clientMessage, rest) =>
    if clientMessage.Methods.contains cfg.AuthMethod then
      (SendServerAuthMessage cfg.AuthMethod, Except.ok rest)
    else
      (SendServerAuthMessage MethodNoAcceptable, Except.error GoErr.versionNotSupported)

/-- Models auth (socks5.go): method negotiation followed, when the configured
method is the password method, by the password sub-negotiation.  The first
component is the list of bytes written to the client. -/
def auth (cfg : Config) (input : List Nat) : List Nat × AuthResult :=
  match negotiate cfg input with
  | (w, Except.error e) => (w, AuthResult.err e)
  | (w, Except.ok rest) =>
    if cfg.AuthMethod = MethodPassword then
      match NewClientPasswordMessage rest with
      | PwParse.err e => (w, AuthResult.err e)
      | PwParse.panicked => (w, AuthResult.panicked)
      | PwParse.ok cpm rest2 =>
        if cfg.PasswordChecker cpm.Username cpm.Password then
          (w ++ WriteServerPasswordMessage PasswordAuthSuccess, AuthResult.ok rest2)
        else
          (w ++ WriteServerPasswordMessage PasswordAuthFailure,
           AuthResult.err GoErr.passwordAuthFailure)
    else (w, AuthResult.ok rest)

/-- A readable byte stream: the bytes it will yield before terminating, and
how it terminates (none is a clean EOF, some eterminates with read error e). -/
structure Stream where
  data : List Nat
  terminal : Option GoErr
  deriving DecidableEq, Repr

/-- Models io.Copy(dst, src) at stream granularity: every byte src yields is
copied to dst; the returned error is nil when src ended with EOF (io.Copy
never returns io.EOF) and the read error otherwise. -/
def ioCopy (src : Stream) : List Nat × Option GoErr := (src.data, src.terminal)

/-- Observable outcome of forward: bytes copied in each direction, whether the
target connection was closed, and the returned error. -/
structure ForwardResult where
  toTarget : List Nat
  toClient : List Nat
  targetClosed : Bool
  err : Option GoErr
  deriving DecidableEq, Repr

/-- Models forward (socks5.go): a goroutine copies client to target, the
function itself copies target to client, closes the target connection by a
deferred Close on every path, and returns the error of the target-to-client copy. -/
def forward (conn targetConn : Stream) : ForwardResult :=
  let g := ioCopy conn
  let c := ioCopy targetConn
  { toTarget := g.1, toClient := c.1, targetClosed := true, err := c.2 }

/-- Result of the external net.DialTimeout on success: the locally bound
address and port, and the target-side stream handed to the relay. -/
structure DialInfo where
  boundIP : List Nat
  boundPort : Nat
  target : Stream

/-- Outcome of the request phase / whole connection handler. -/
inductive Outcome where
  | ok
  | err (e : GoErr)
  | panicked
  deriving DecidableEq, Repr

/-- Models handleTCP (socks5.go): dial the target (abstracted as the dial
argument); on failure write the ConnectionRefused failure frame and fail; on
success write the success reply and run forward.  Components: bytes written
to the client, result, and whether a dial was attempted. -/
def handleTCP (dial : Option DialInfo) (_message : ClientRequestMessage) (connRest : List Nat) :
    List Nat × Outcome × Bool :=
  match dial with
  | none => (WriteRequestFailureMessage ReplyConnectionRefused, Outcome.err GoErr.dialFailed, true)
  | some d =>
    let w := WriteRequestSuccessMessage d.boundIP d.boundPort
    let f := forward { data := connRest, terminal := none } d.target
    (w ++ f.toClient,
     match f.err with
     | none => Outcome.ok
     | some e => Outcome.err e,
     true)

/-- Models handleUDP (socks5.go): logs that UDP is not implemented and
returns nil, writing nothing and dialing nothing. -/
def handleUDP : List Nat × Outcome × Bool := ([], Outcome.ok, false)

/-- Models request (socks5.go): parse the request, reject IPv6 targets with
the AddressTypeNotSupported frame, dispatch Connect to handleTCP and UDP to
handleUDP, and reject any other command with the CommandNotSupported frame. -/
def request (dial : Option DialInfo) (input : List Nat) : List Nat × Outcome × Bool :=
  match NewClientRequestMessage input with
  | Except.error e => ([], Outcome.err e, false)
  | Except.ok (message, rest) =>
    if message.AddrType = TypeIPv6 then
      (WriteRequestFailureMessage ReplyAddressTypeNotSupported,
       Outcome.err GoErr.addressTypeNotSupported, false)
    else if message.Cmd = CmdConnect then handleTCP dial message rest
    else if message.Cmd = CmdUDP then handleUDP
    else
      (WriteRequestFailureMessage ReplyCommandNotSupported,
       Outcome.err GoErr.commandNotSupported, false)

/-- Models handleConnection (socks5.go): the auth phase followed, on success,
by the request phase. -/
def handleConnection (cfg : Config) (dial : Option DialInfo) (input : List Nat) :
    List Nat × Outcome × Bool :=
  match auth cfg input with
  | (w, AuthResult.err e) => (w, Outcome.err e, false)
  | (w, AuthResult.panicked) => (w, Outcome.panicked, false)
  | (w, AuthResult.ok rest) =>
    let r := request dial rest
    (w ++ r.1, r.2.1, r.2.2)

/-- Modelled from the spec: the request wire layout VER CMD RSV ATYP DST.ADDR
DST.PORT with a big-endian port (specification section 6); the repository
contains no request encoder, only the parser.  For the IP address types the
DST.ADDR bytes are supplied as addrBytes, the byte form of the rendered
target address of the message. -/
def encodeRequestMessage (m : ClientRequestMessage) (addrBytes : List Nat) : List Nat :=
  SOCKS5Version :: m.Cmd :: ReservedField :: m.AddrType ::
    ((if m.AddrType = TypeDomain then m.TargetIP.length :: m.TargetIP else addrBytes) ++
      [m.Port / 256, m.Port % 256])

/-! ## Helper lemmas -/

theorem readN_append (xs ys : List Nat) : readN xs.length (xs ++ ys) = some (xs, ys) := by
  simp [readN]

theorem readN_eq {n : Nat} {s xs ys : List Nat} (h : readN n s = some (xs, ys)) :
    s = xs ++ ys ∧ xs.length = n := by
  by_cases hc : n ≤ s.length
  · rw [readN, if_pos hc] at h
    simp only [Option.some.injEq, Prod.mk.injEq] at h
    obtain ⟨h1, h2⟩ := h
    subst h1
    subst h2
    exact ⟨(List.take_append_drop n s).symm, by simp [Nat.min_eq_left hc]⟩
  · rw [readN, if_neg hc] at h
    cases h

theorem finishPort_eq {cmd addrType : Nat} {t s : List Nat} {msg : ClientRequestMessage}
    {rest : List Nat} (h : finishPort cmd addrType t s = Except.ok (msg, rest)) :
    ∃ p0 p1, s = p0 :: p1 :: rest ∧
      msg = { Cmd := cmd, AddrType := addrType, TargetIP := t, Port := p0 * 256 + p1 } := by
  match s with
  | [] => simp [finishPort] at h
  | [a] => simp [finishPort] at h
  | p0 :: p1 :: r =>
    simp only [finishPort, Except.ok.injEq, Prod.mk.injEq] at h
    obtain ⟨hm, hr⟩ := h
    subst hr
    exact ⟨p0, p1, rfl, hm.symm⟩
/-! ## Claims -/

/-- C1 counterexample: the request bytes 05 03 00 01 09 09 09 09 00 50 parse
successfully with the UDP-associate command, yet the server writes no reply
bytes at all, returns nil (no failure), and never dials. -/
theorem c1_counterexample :
    request none [5, 3, 0, 1, 9, 9, 9, 9, 0, 80] = ([], Outcome.ok, false) := by
  rfl

/-- C1 (amended): for every successfully parsed non-IPv6 request, the
CommandNotSupported failure frame is written and the connection fails without
dialing when the command is Bind; when the command is UDP-associate the
server writes nothing and returns success, also without dialing. -/
theorem c1_nonConnectCommands (dial : Option DialInfo) (input : List Nat)
    (msg : ClientRequestMessage) (rest : List Nat)
    (h : NewClientRequestMessage input = Except.ok (msg, rest))
    (h6 : msg.AddrType ≠ TypeIPv6) :
    (msg.Cmd = CmdBind →
      request dial input =
        (WriteRequestFailureMessage ReplyCommandNotSupported,
         Outcome.err GoErr.commandNotSupported, false)) ∧
    (msg.Cmd = CmdUDP → request dial input = ([], Outcome.ok, false)) := by
  constructor <;> intro hcmd <;>
    simp [request, h, h6, hcmd, handleUDP]

/-- C1 witness: a Bind request gets the CommandNotSupported frame and fails
without a dial. -/
theorem c1_nonConnectCommands_witness :
    request none [5, 2, 0, 1, 9, 9, 9, 9, 0, 80] =
      (WriteRequestFailureMessage ReplyCommandNotSupported,
       Outcome.err GoErr.commandNotSupported, false) :=
  (c1_nonConnectCommands none [5, 2, 0, 1, 9, 9, 9, 9, 0, 80]
    { Cmd := 2, AddrType := 1, TargetIP := netIPString [9, 9, 9, 9], Port := 80 } []
    (by rfl) (by decide)).1 rfl

/-- C2 counterexample: with configured method no-auth and offered methods
[password], the negotiator writes 05 FF and fails -- but with
ErrVersionNotSupported, the very same error value a greeting with a bad
version byte produces, so it does not fail with a distinct
no-acceptable-method error. -/
theorem c2_counterexample :
    negotiate { AuthMethod := MethodNoAuth, PasswordChecker := fun _ _ => false } [5, 1, 2] =
      ([5, 255], Except.error GoErr.versionNotSupported) ∧
    (negotiate { AuthMethod := MethodNoAuth, PasswordChecker := fun _ _ => false } [4, 1, 2]).2 =
      Except.error GoErr.versionNotSupported := by
  constructor <;> rfl

/-- C2 (amended): for every valid greeting, if the configured method appears
in the offered list the negotiator writes exactly (5, configuredMethod) and
succeeds; otherwise it writes exactly (5, 0xFF) and fails with
ErrVersionNotSupported, the protocol-version error reused by the code. -/
theorem c2_negotiation (cfg : Config) (input : List Nat) (msg : ClientAuthMessage)
    (rest : List Nat) (h : NewClientAuthMessage input = Except.ok (msg, rest)) :
    negotiate cfg input =
      if msg.Methods.contains cfg.AuthMethod then ([5, cfg.AuthMethod], Except.ok rest)
      else ([5, 255], Except.error GoErr.versionNotSupported) := by
  simp [negotiate, h, SendServerAuthMessage]

/-- C2 witness: greeting 05 01 00 with configured method no-auth yields the
response 05 00 and success. -/
theorem c2_negotiation_witness :
    negotiate { AuthMethod := MethodNoAuth, PasswordChecker := fun _ _ => false } [5, 1, 0] =
      ([5, 0], Except.ok []) := by
  have h := c2_negotiation { AuthMethod := MethodNoAuth, PasswordChecker := fun _ _ => false }
    [5, 1, 0] { Version := 5, NMethods := 1, Methods := [0] } [] (by rfl)
  simpa using h

/-- C6: for a bound address of length 4 or 16 and a 16-bit port, the success
reply is version 5, status 0, reserved 0, the address-type byte derived from
the address length, the raw address bytes, and the big-endian port. -/
theorem c6_successReply (ip : List Nat) (port : Nat)
    (hl : ip.length = 4 ∨ ip.length = 16) (hp : port < 65536) :
    WriteRequestSuccessMessage ip port =
      [5, 0, 0, if ip.length = 4 then 1 else 4] ++ ip ++ [port / 256, port % 256] := by
  rcases hl with h | h <;>
    simp [WriteRequestSuccessMessage, IPv4Length, TypeIPv4, TypeIPv6, h,
      Nat.mod_eq_of_lt hp] <;>
    omega

/-- C6 witness: bound address 127.0.0.1 and port 1080 produce exactly the
bytes 05 00 00 01 7F 00 00 01 04 38. -/
theorem c6_successReply_witness :
    WriteRequestSuccessMessage [127, 0, 0, 1] 1080 = [5, 0, 0, 1, 127, 0, 0, 1, 4, 56] :=
  (c6_successReply [127, 0, 0, 1] 1080 (Or.inl rfl) (by decide)).trans (by decide)

/-- C7: a greeting whose first byte is not 5 aborts the whole connection
handler with ErrVersionNotSupported (ProtocolVersionError in the spec) and no
bytes are ever written back to the client. -/
theorem c7_badVersion (cfg : Config) (dial : Option DialInfo) (b0 b1 : Nat)
    (rest : List Nat) (h : b0 ≠ 5) :
    handleConnection cfg dial (b0 :: b1 :: rest) =
      ([], Outcome.err GoErr.versionNotSupported, false) := by
  simp [handleConnection, auth, negotiate, NewClientAuthMessage, h]

/-- C7 witness: the greeting 04 01 00 aborts with the version error and
writes nothing. -/
theorem c7_badVersion_witness :
    handleConnection { AuthMethod := MethodNoAuth, PasswordChecker := fun _ _ => false }
      none [4, 1, 0] = ([], Outcome.err GoErr.versionNotSupported, false) :=
  c7_badVersion { AuthMethod := MethodNoAuth, PasswordChecker := fun _ _ => false }
    none 4 1 [0] (by decide)

/-- C9: the relay returns the terminal error of the target-to-client copy,
a clean end-of-stream on the target side yields a nil (none) result, and the
target connection is closed on every exit path. -/
theorem c9_forward (conn targetConn : Stream) :
    (forward conn targetConn).err = (ioCopy targetConn).2 ∧
    (forward conn targetConn).targetClosed = true ∧
    (targetConn.terminal = none → (forward conn targetConn).err = none) := by
  refine ⟨rfl, rfl, fun h => ?_⟩
  simp [forward, ioCopy, h]

/-- C9 witness: a relay whose target stream ends with EOF closes the target
and returns a nil error. -/
theorem c9_forward_witness :
    (forward { data := [1], terminal := none } { data := [2], terminal := none }).err = none ∧
    (forward { data := [1], terminal := none }
      { data := [2], terminal := none }).targetClosed = true := by
  have h := c9_forward { data := [1], terminal := none } { data := [2], terminal := none }
  exact ⟨h.2.2 rfl, h.2.1⟩

/-- C10: every successfully parsed request with address type IPv6 gets the
AddressTypeNotSupported failure frame and fails with the address-type error,
regardless of its command and without any dial being attempted. -/
theorem c10_ipv6Rejected (dial : Option DialInfo) (input : List Nat)
    (msg : ClientRequestMessage) (rest : List Nat)
    (h : NewClientRequestMessage input = Except.ok (msg, rest))
    (h6 : msg.AddrType = TypeIPv6) :
    request dial input =
      (WriteRequestFailureMessage ReplyAddressTypeNotSupported,
       Outcome.err GoErr.addressTypeNotSupported, false) := by
  simp [request, h, h6]

/-- C10 witness: a CONNECT request to the all-zero IPv6 address is rejected
with the AddressTypeNotSupported frame and no dial. -/
theorem c10_ipv6Rejected_witness :
    request none ([5, 1, 0, 4] ++ List.replicate 16 0 ++ [0, 80]) =
      (WriteRequestFailureMessage ReplyAddressTypeNotSupported,
       Outcome.err GoErr.addressTypeNotSupported, false) :=
  c10_ipv6Rejected none ([5, 1, 0, 4] ++ List.replicate 16 0 ++ [0, 80])
    { Cmd := 1, AddrType := 4, TargetIP := netIPString (List.replicate 16 0), Port := 80 } []
    (by rfl) rfl

set_option maxRecDepth 20000 in
/-- C3: for ULEN up to 254 the password sub-negotiation parser consumes
exactly ULEN username bytes, the password-length byte, and exactly PLEN
password bytes, returning the exact wire bytes; at ULEN = 255 the buffer
length usernameLen+1 wraps to 0 in byte arithmetic and the Go slice
expression buf[: -1] panics, so the parser is not well-defined there. -/
theorem c3_passwordParse :
    (∀ (ulen plen : Nat) (uname pw rest : List Nat),
      ulen ≤ 254 → plen ≤ 255 → uname.length = ulen → pw.length = plen →
      NewClientPasswordMessage (1 :: ulen :: (uname ++ plen :: (pw ++ rest))) =
        PwParse.ok { Username := uname, Password := pw } rest) ∧
    NewClientPasswordMessage (1 :: 255 :: List.replicate 256 0) = PwParse.panicked := by
  constructor
  · intro ulen plen uname pw rest hu _hp hul hpl
    have hb : (ulen + 1) % 256 = ulen + 1 := Nat.mod_eq_of_lt (by omega)
    have hl2 : (uname ++ [plen]).length = ulen + 1 := by simp [hul]
    have h1 : readN (ulen + 1) (uname ++ plen :: (pw ++ rest)) =
        some (uname ++ [plen], pw ++ rest) := by
      have hs : uname ++ plen :: (pw ++ rest) = (uname ++ [plen]) ++ (pw ++ rest) := by simp
      rw [← hl2, hs]
      exact readN_append _ _
    have h2 : readN plen (pw ++ rest) = some (pw, rest) := by
      rw [← hpl]
      exact readN_append _ _
    simp [NewClientPasswordMessage, hb, h1, h2, List.dropLast_concat, List.getLast?_concat]
  · rfl

/-- C3 witness: the message 01 01 61 01 62 parses to username 0x61 and
password 0x62 with nothing left over. -/
theorem c3_passwordParse_witness :
    NewClientPasswordMessage [1, 1, 97, 1, 98] =
      PwParse.ok { Username := [97], Password := [98] } [] :=
  c3_passwordParse.1 1 1 [97] [98] [] (by decide) (by decide) rfl rfl

/-- C4: after a successful greeting offering the password method and a
successfully parsed password message, authentication succeeds exactly when
the injected checker accepts the extracted username and password; on accept
the server has written 05 02 then the success status 01 00, on reject it has
written 05 02 then the failure status 01 01 and fails with
ErrPasswordAuthFailure. -/
theorem c4_passwordAuth (checker : List Nat → List Nat → Bool)
    (input rest0 rest : List Nat) (msg : ClientAuthMessage) (cpm : ClientPasswordMessage)
    (h1 : NewClientAuthMessage input = Except.ok (msg, rest0))
    (h2 : msg.Methods.contains MethodPassword = true)
    (h3 : NewClientPasswordMessage rest0 = PwParse.ok cpm rest) :
    auth { AuthMethod := MethodPassword, PasswordChecker := checker } input =
      (if checker cpm.Username cpm.Password then ([5, 2, 1, 0], AuthResult.ok rest)
       else ([5, 2, 1, 1], AuthResult.err GoErr.passwordAuthFailure)) ∧
    ((auth { AuthMethod := MethodPassword, PasswordChecker := checker } input).2 =
        AuthResult.ok rest ↔ checker cpm.Username cpm.Password = true) := by
  have h2m : MethodPassword ∈ msg.Methods := by simpa using h2
  have hb : auth { AuthMethod := MethodPassword, PasswordChecker := checker } input =
      (if checker cpm.Username cpm.Password then ([5, 2, 1, 0], AuthResult.ok rest)
       else ([5, 2, 1, 1], AuthResult.err GoErr.passwordAuthFailure)) := by
    cases hch : checker cpm.Username cpm.Password <;>
      simp [auth, negotiate, h1, h2m, h3, hch, SendServerAuthMessage,
        WriteServerPasswordMessage]
  refine ⟨hb, ?_⟩
  rw [hb]
  cases hch : checker cpm.Username cpm.Password <;> simp [hch]

/-- C4 witness: with a checker accepting exactly (0x61, 0x62), the full auth
phase on a greeting offering the password method followed by that credential
message writes 05 02 01 00 and succeeds. -/
theorem c4_passwordAuth_witness :
    auth { AuthMethod := MethodPassword,
           PasswordChecker := fun u p => u == [97] && p == [98] }
      [5, 1, 2, 1, 1, 97, 1, 98] = ([5, 2, 1, 0], AuthResult.ok []) := by
  rw [(c4_passwordAuth (fun u p => u == [97] && p == [98]) [5, 1, 2, 1, 1, 97, 1, 98]
    [1, 1, 97, 1, 98] [] { Version := 5, NMethods := 1, Methods := [2] }
    { Username := [97], Password := [98] } (by rfl) (by decide) (by rfl)).1]
  decide

/-- C5: the request bytes 05 01 00 03 0B "example.com" 00 50 decode to a
Connect command, Domain address type, target address "example.com" and port
80; and every successfully parsed request composes its port big-endian from
the final two consumed bytes, port = byte0 * 256 + byte1. -/
theorem c5_requestDecode :
    NewClientRequestMessage (5 :: 1 :: 0 :: 3 :: 11 :: (strBytes "example.com" ++ [0, 80])) =
      Except.ok ({ Cmd := CmdConnect, AddrType := TypeDomain,
                   TargetIP := strBytes "example.com", Port := 80 }, []) ∧
    ∀ (input : List Nat) (msg : ClientRequestMessage) (rest : List Nat),
      NewClientRequestMessage input = Except.ok (msg, rest) →
      ∃ pre p0 p1, input = pre ++ p0 :: p1 :: rest ∧ msg.Port = p0 * 256 + p1 := by
  constructor
  · rfl
  · intro input msg rest h
    rcases input with _ | ⟨version, _ | ⟨command, _ | ⟨reserved, _ | ⟨addrType, rest0⟩⟩⟩⟩
    · exact Except.noConfusion h
    · exact Except.noConfusion h
    · exact Except.noConfusion h
    · exact Except.noConfusion h
    · simp only [NewClientRequestMessage] at h
      split_ifs at h
      · rcases rest0 with _ | ⟨dlen, rest1⟩
        · exact Except.noConfusion h
        · have h2 : (match readN dlen rest1 with
              | none => Except.error GoErr.ioShortRead
              | some (domain, rest2) => finishPort command addrType domain rest2) =
              Except.ok (msg, rest) := h
          rcases hr : readN dlen rest1 with _ | ⟨domain, rest2⟩ <;> rw [hr] at h2
          · exact Except.noConfusion h2
          · have h3 : finishPort command addrType domain rest2 = Except.ok (msg, rest) := h2
            obtain ⟨p0, p1, hs, hmsg⟩ := finishPort_eq h3
            obtain ⟨hsplit, hlen⟩ := readN_eq hr
            subst hmsg
            subst hs
            refine ⟨version :: command :: reserved :: addrType :: dlen :: domain, p0, p1,
              ?_, rfl⟩
            simp [hsplit]
      · rcases hr : readN IPv6Length rest0 with _ | ⟨buf, rest2⟩ <;> rw [hr] at h
        · exact Except.noConfusion h
        · have h3 : finishPort command addrType (netIPString buf) rest2 =
              Except.ok (msg, rest) := h
          obtain ⟨p0, p1, hs, hmsg⟩ := finishPort_eq h3
          obtain ⟨hsplit, hlen⟩ := readN_eq hr
          subst hmsg
          subst hs
          refine ⟨version :: command :: reserved :: addrType :: buf, p0, p1, ?_, rfl⟩
          simp [hsplit]
      · rcases hr : readN IPv4Length rest0 with _ | ⟨buf, rest2⟩ <;> rw [hr] at h
        · exact Except.noConfusion h
        · have h3 : finishPort command addrType (netIPString buf) rest2 =
              Except.ok (msg, rest) := h
          obtain ⟨p0, p1, hs, hmsg⟩ := finishPort_eq h3
          obtain ⟨hsplit, hlen⟩ := readN_eq hr
          subst hmsg
          subst hs
          refine ⟨version :: command :: reserved :: addrType :: buf, p0, p1, ?_, rfl⟩
          simp [hsplit]

/-- C5 witness: the big-endian port property instantiated on the scenario B
request bytes. -/
theorem c5_requestDecode_witness :
    ∃ pre p0 p1,
      (5 :: 1 :: 0 :: 3 :: 11 :: (strBytes "example.com" ++ [0, 80])) =
        pre ++ p0 :: p1 :: ([] : List Nat) ∧
      ({ Cmd := CmdConnect, AddrType := TypeDomain, TargetIP := strBytes "example.com",
         Port := 80 } : ClientRequestMessage).Port = p0 * 256 + p1 :=
  c5_requestDecode.2 (5 :: 1 :: 0 :: 3 :: 11 :: (strBytes "example.com" ++ [0, 80]))
    { Cmd := CmdConnect, AddrType := TypeDomain, TargetIP := strBytes "example.com",
      Port := 80 } [] (by rfl)

/-- Decode-of-encode over the raw message fields; used by the round-trip
claim. -/
theorem decode_encode_fields (cmd atyp : Nat) (tip addrBytes : List Nat) (port : Nat)
    (hc : cmd = CmdConnect ∨ cmd = CmdBind ∨ cmd = CmdUDP) (_hp : port < 65536)
    (ha : (atyp = TypeIPv4 ∧ addrBytes.length = 4 ∧ tip = netIPString addrBytes) ∨
          (atyp = TypeIPv6 ∧ addrBytes.length = 16 ∧ tip = netIPString addrBytes) ∨
          (atyp = TypeDomain ∧ tip.length ≤ 255)) :
    NewClientRequestMessage
        (encodeRequestMessage
          { Cmd := cmd, AddrType := atyp, TargetIP := tip, Port := port } addrBytes) =
      Except.ok ({ Cmd := cmd, AddrType := atyp, TargetIP := tip, Port := port }, []) := by
  have hcmd : ¬(cmd ≠ CmdConnect ∧ cmd ≠ CmdBind ∧ cmd ≠ CmdUDP) := by
    rcases hc with h | h | h <;> simp [h]
  have hport : port / 256 * 256 + port % 256 = port := by omega
  rcases ha with ⟨h1, h2, h3⟩ | ⟨h1, h2, h3⟩ | ⟨h1, h2⟩ <;> subst h1
  · subst h3
    have hr : readN 4 (addrBytes ++ [port / 256, port % 256]) =
        some (addrBytes, [port / 256, port % 256]) := by
      rw [← h2]
      exact readN_append _ _
    simp [NewClientRequestMessage, encodeRequestMessage, hcmd, hr, finishPort, hport]
  · subst h3
    have hr : readN 16 (addrBytes ++ [port / 256, port % 256]) =
        some (addrBytes, [port / 256, port % 256]) := by
      rw [← h2]
      exact readN_append _ _
    simp [NewClientRequestMessage, encodeRequestMessage, hcmd, hr, finishPort, hport]
  · have hr : readN tip.length (tip ++ [port / 256, port % 256]) =
        some (tip, [port / 256, port % 256]) := readN_append _ _
    simp [NewClientRequestMessage, encodeRequestMessage, hcmd, hr, finishPort, hport]

/-- C8: for every request message of any of the three address types whose
target address is the rendering of its wire address bytes, any valid command
and any 16-bit port, encoding it into the wire layout VER CMD RSV ATYP
DST.ADDR DST.PORT and decoding the result with the request parser reproduces
the original command, address type, address and port exactly. -/
theorem c8_roundTrip (m : ClientRequestMessage) (addrBytes : List Nat)
    (hc : m.Cmd = CmdConnect ∨ m.Cmd = CmdBind ∨ m.Cmd = CmdUDP)
    (hp : m.Port < 65536)
    (ha : (m.AddrType = TypeIPv4 ∧ addrBytes.length = 4 ∧ m.TargetIP = netIPString addrBytes) ∨
          (m.AddrType = TypeIPv6 ∧ addrBytes.length = 16 ∧ m.TargetIP = netIPString addrBytes) ∨
          (m.AddrType = TypeDomain ∧ m.TargetIP.length ≤ 255)) :
    NewClientRequestMessage (encodeRequestMessage m addrBytes) = Except.ok (m, []) := by
  obtain ⟨cmd, atyp, tip, port⟩ := m
  exact decode_encode_fields cmd atyp tip addrBytes port hc hp ha

/-- C8 witness: a Connect request to 127.0.0.1 port 80 survives the
encode-decode round trip. -/
theorem c8_roundTrip_witness :
    NewClientRequestMessage
        (encodeRequestMessage
          { Cmd := CmdConnect, AddrType := TypeIPv4,
            TargetIP := netIPString [127, 0, 0, 1], Port := 80 } [127, 0, 0, 1]) =
      Except.ok ({ Cmd := CmdConnect, AddrType := TypeIPv4,
                   TargetIP := netIPString [127, 0, 0, 1], Port := 80 }, []) :=
  c8_roundTrip
    { Cmd := CmdConnect, AddrType := TypeIPv4,
      TargetIP := netIPString [127, 0, 0, 1], Port := 80 } [127, 0, 0, 1]
    (Or.inl rfl) (by decide) (Or.inl ⟨rfl, rfl, rfl⟩)

end Socks5
